import Mathlib

/-!
Shallow embedding of the lifecycle core of the api-ts-outreach repository.

Conventions of the embedding:
- JS Map objects become association lists with mapGet / mapSet / mapDelete.
- Date values become natural numbers (milliseconds since the epoch); every
  call of the form new Date() in the source becomes an explicit time
  parameter of the embedded operation.
- The external automation backend (GrowChiefService over HTTP) is modelled
  as an oracle GwOutcome passed to each lifecycle operation: ok means the
  delegate call resolved, fail msg means it rejected with an error whose
  message is msg.  Each operation additionally returns the list of gateway
  calls it issued, so that absence of a delegate call is statable.
- A rejected Promise (a thrown Error) becomes the err constructor of
  SvcResult carrying the message string of the thrown Error.
-/

/-- Lookup in an association list, modelling JS Map.prototype.get. -/
def mapGet {α : Type} (m : List (String × α)) (k : String) : Option α :=
  match m with
  | [] => none
  | (k1, v) :: rest => if k1 = k then some v else mapGet rest k

/-- Insert or replace in an association list, modelling JS Map.prototype.set. -/
def mapSet {α : Type} (m : List (String × α)) (k : String) (v : α) :
    List (String × α) :=
  match m with
  | [] => [(k, v)]
  | (k1, v1) :: rest =>
    if k1 = k then (k, v) :: rest else (k1, v1) :: mapSet rest k v

/-- Removal from an association list, modelling JS Map.prototype.delete
(JS Map keys are unique, so removing every binding of the key is faithful). -/
def mapDelete {α : Type} (m : List (String × α)) (k : String) :
    List (String × α) :=
  match m with
  | [] => []
  | (k1, v1) :: rest =>
    if k1 = k then mapDelete rest k else (k1, v1) :: mapDelete rest k

/-- CampaignStatus enumeration from src/models/types.ts. -/
inductive CampaignStatus
  | draft
  | active
  | paused
  | completed
  | cancelled
deriving DecidableEq, Repr

/-- The string value of a CampaignStatus, as interpolated into error messages. -/
def CampaignStatus.str : CampaignStatus → String
  | .draft => "draft"
  | .active => "active"
  | .paused => "paused"
  | .completed => "completed"
  | .cancelled => "cancelled"

/-- SocialPlatform enumeration from src/models/types.ts. -/
inductive SocialPlatform
  | linkedin
  | twitter
  | facebook
  | instagram
deriving DecidableEq, Repr

/-- The workingHours part of CampaignSettings.  The source field named end is
renamed endHM here because end is a reserved word in Lean. -/
structure WorkingHoursCfg where
  start : String
  endHM : String
  timezone : String
  weekdays : List Nat
deriving DecidableEq, Repr

/-- The rateLimiting part of CampaignSettings. -/
structure RateLimitingCfg where
  maxConnectionsPerDay : Nat
  maxMessagesPerDay : Nat
  delayBetweenActions : Nat
deriving DecidableEq, Repr

/-- The personalization part of CampaignSettings. -/
structure PersonalizationCfg where
  useCustomMessages : Bool
  messageTemplates : List String
  includeCompanyInfo : Bool
deriving DecidableEq, Repr

/-- CampaignSettings from src/models/types.ts. -/
structure CampaignSettings where
  workingHours : WorkingHoursCfg
  rateLimiting : RateLimitingCfg
  personalization : PersonalizationCfg
deriving DecidableEq, Repr

/-- Campaign entity from src/models/types.ts.  Dates are Nat milliseconds;
optional fields are Option. -/
structure Campaign where
  id : String
  userId : String
  name : String
  description : Option String
  status : CampaignStatus
  platform : SocialPlatform
  settings : CampaignSettings
  createdAt : Nat
  updatedAt : Nat
  startedAt : Option Nat
  completedAt : Option Nat
deriving DecidableEq, Repr

/-- CreateCampaignRequest from src/models/types.ts. -/
structure CreateCampaignRequest where
  name : String
  description : Option String
  platform : SocialPlatform
  settings : CampaignSettings
deriving DecidableEq, Repr

/-- Partial CreateCampaignRequest, the updateData argument of
updateCampaign: every field may be absent. -/
structure UpdateCampaignRequest where
  name : Option String
  description : Option String
  platform : Option SocialPlatform
  settings : Option CampaignSettings
deriving DecidableEq, Repr

/-- LeadStatus enumeration from src/models/types.ts. -/
inductive LeadStatus
  | pending
  | processing
  | connected
  | messaged
  | replied
  | failed
  | skipped
deriving DecidableEq, Repr

/-- The string value of a LeadStatus, as interpolated into error messages. -/
def LeadStatus.str : LeadStatus → String
  | .pending => "pending"
  | .processing => "processing"
  | .connected => "connected"
  | .messaged => "messaged"
  | .replied => "replied"
  | .failed => "failed"
  | .skipped => "skipped"

/-- Lead entity from src/models/types.ts.  The free-form metadata record is
modelled as a string-to-string association list. -/
structure Lead where
  id : String
  campaignId : String
  email : Option String
  name : Option String
  company : Option String
  profileUrl : Option String
  status : LeadStatus
  metadata : Option (List (String × String))
  createdAt : Nat
  updatedAt : Nat
  processedAt : Option Nat
deriving DecidableEq, Repr

/-- WorkflowStatus enumeration from src/models/types.ts. -/
inductive WorkflowStatus
  | draft
  | active
  | paused
  | completed
  | failed
deriving DecidableEq, Repr

/-- The string value of a WorkflowStatus, as interpolated into error messages. -/
def WorkflowStatus.str : WorkflowStatus → String
  | .draft => "draft"
  | .active => "active"
  | .paused => "paused"
  | .completed => "completed"
  | .failed => "failed"

/-- WorkflowStep from src/models/types.ts.  The type tag is carried as a raw
string because validateWorkflowSteps defends against values outside the
WorkflowStepType enumeration; config is Option because the validator defends
against a null or missing config object (none models that). -/
structure WorkflowStep where
  id : String
  type : String
  config : Option (List (String × String))
  order : Int
deriving DecidableEq, Repr

/-- The string values of the WorkflowStepType enumeration
(Object.values(WorkflowStepType) in the source). -/
def workflowStepTypeValues : List String :=
  ["connect", "message", "follow_up", "view_profile", "like_post", "comment"]

/-- WorkflowSettings from src/models/types.ts. -/
structure WorkflowSettings where
  retryAttempts : Nat
  retryDelay : Nat
  timeout : Nat
  concurrency : Nat
deriving DecidableEq, Repr

/-- Workflow entity from src/models/types.ts. -/
structure Workflow where
  id : String
  campaignId : String
  name : String
  steps : List WorkflowStep
  status : WorkflowStatus
  settings : WorkflowSettings
  createdAt : Nat
  updatedAt : Nat
deriving DecidableEq, Repr

/-- CreateWorkflowRequest from src/models/types.ts. -/
structure CreateWorkflowRequest where
  name : String
  steps : List WorkflowStep
  settings : WorkflowSettings
deriving DecidableEq, Repr

/-- Outcome of a delegate call against the external automation backend:
either the call resolves, or it rejects with an error message. -/
inductive GwOutcome
  | ok
  | fail (msg : String)
deriving DecidableEq, Repr

/-- A call issued to the GrowChiefService gateway, with the arguments the
services pass at each call site. -/
inductive GwCall
  | executeCampaign (campaignId workflowId : String)
  | pauseCampaign (campaignId : String)
  | resumeCampaign (campaignId : String)
  | cancelCampaign (campaignId : String)
  | createWorkflow (workflow : Workflow)
  | addLeads (campaignId : String) (leads : List Lead)
deriving DecidableEq, Repr

/-- Result of an async service operation: a resolved Promise, or a rejection
carrying the message of the thrown Error. -/
inductive SvcResult
  | ok
  | err (msg : String)
deriving DecidableEq, Repr

/-- The in-memory campaign store (private campaigns Map of CampaignService). -/
abbrev CampaignStore := List (String × Campaign)

/-- The in-memory lead store (private leads Map of LeadService). -/
abbrev LeadStore := List (String × Lead)

/-- The in-memory workflow store (private workflows Map of WorkflowService). -/
abbrev WorkflowStore := List (String × Workflow)

/-- CampaignService.createCampaign from src/services/campaignService.ts.
The uuidv4 identifier is passed explicitly as campaignId; now is the value
of new Date(). -/
def createCampaign (store : CampaignStore) (campaignId userId : String)
    (data : CreateCampaignRequest) (now : Nat) : Campaign × CampaignStore :=
  let campaign : Campaign :=
    { id := campaignId
      userId := userId
      name := data.name
      description := data.description
      status := CampaignStatus.draft
      platform := data.platform
      settings := data.settings
      createdAt := now
      updatedAt := now
      startedAt := none
      completedAt := none }
  (campaign, mapSet store campaignId campaign)

/-- CampaignService.getCampaignById: returns null when the campaign is absent
or owned by another user.  Reads never change the store. -/
def getCampaignById (store : CampaignStore) (userId campaignId : String) :
    Option Campaign :=
  match mapGet store campaignId with
  | none => none
  | some campaign =>
    if campaign.userId ≠ userId then none else some campaign

/-- CampaignService.updateCampaign.  Each field of the partial update is
applied under the same condition as the source: the name only when truthy
(present and nonempty, JS truthiness), description when not undefined,
platform and settings when truthy (present).  userId is never written. -/
def updateCampaign (store : CampaignStore) (userId campaignId : String)
    (updateData : UpdateCampaignRequest) (now : Nat) :
    Option Campaign × CampaignStore :=
  match mapGet store campaignId with
  | none => (none, store)
  | some campaign =>
    if campaign.userId ≠ userId then (none, store)
    else
      let newName :=
        match updateData.name with
        | some n => if n = "" then campaign.name else n
        | none => campaign.name
      let newDescription :=
        match updateData.description with
        | some d => some d
        | none => campaign.description
      let newPlatform :=
        match updateData.platform with
        | some p => p
        | none => campaign.platform
      let newSettings :=
        match updateData.settings with
        | some s => s
        | none => campaign.settings
      let updated :=
        { campaign with
          name := newName
          description := newDescription
          platform := newPlatform
          settings := newSettings
          updatedAt := now }
      (some updated, mapSet store campaignId updated)

/-- CampaignService.deleteCampaign.  When the campaign is active the service
first calls growChiefService.cancelCampaign inside a try/catch whose catch
only logs, so the local deletion proceeds for either gateway outcome. -/
def deleteCampaign (store : CampaignStore) (userId campaignId : String)
    (_gw : GwOutcome) : Bool × CampaignStore × List GwCall :=
  match mapGet store campaignId with
  | none => (false, store, [])
  | some campaign =>
    if campaign.userId ≠ userId then (false, store, [])
    else
      let calls :=
        if campaign.status = CampaignStatus.active then
          [GwCall.cancelCampaign campaignId]
        else []
      (true, mapDelete store campaignId, calls)

/-- CampaignService.startCampaign.  t1 is the time of the optimistic write,
t2 the time of the compensating write on delegate failure. -/
def startCampaign (store : CampaignStore) (userId campaignId : String)
    (gw : GwOutcome) (t1 t2 : Nat) :
    SvcResult × CampaignStore × List GwCall :=
  match mapGet store campaignId with
  | none => (.err "Campaign not found", store, [])
  | some campaign =>
    if campaign.userId ≠ userId then (.err "Campaign not found", store, [])
    else if campaign.status ≠ CampaignStatus.draft then
      (.err ("Cannot start campaign with status: " ++ campaign.status.str),
        store, [])
    else
      let c1 :=
        { campaign with
          status := CampaignStatus.active
          startedAt := some t1
          updatedAt := t1 }
      let s1 := mapSet store campaignId c1
      match gw with
      | .ok => (.ok, s1, [GwCall.executeCampaign campaignId "default-workflow"])
      | .fail msg =>
        let c2 :=
          { c1 with
            status := CampaignStatus.draft
            startedAt := none
            updatedAt := t2 }
        (.err ("Failed to start campaign: " ++ msg),
          mapSet s1 campaignId c2,
          [GwCall.executeCampaign campaignId "default-workflow"])

/-- CampaignService.pauseCampaign: the delegate call happens before any local
mutation and is not wrapped in try/catch, so on failure the rejection
propagates unchanged and the store is untouched. -/
def pauseCampaign (store : CampaignStore) (userId campaignId : String)
    (gw : GwOutcome) (now : Nat) :
    SvcResult × CampaignStore × List GwCall :=
  match mapGet store campaignId with
  | none => (.err "Campaign not found", store, [])
  | some campaign =>
    if campaign.userId ≠ userId then (.err "Campaign not found", store, [])
    else if campaign.status ≠ CampaignStatus.active then
      (.err ("Cannot pause campaign with status: " ++ campaign.status.str),
        store, [])
    else
      match gw with
      | .fail msg => (.err msg, store, [GwCall.pauseCampaign campaignId])
      | .ok =>
        let c1 := { campaign with status := CampaignStatus.paused, updatedAt := now }
        (.ok, mapSet store campaignId c1, [GwCall.pauseCampaign campaignId])

/-- CampaignService.resumeCampaign: symmetric to pauseCampaign. -/
def resumeCampaign (store : CampaignStore) (userId campaignId : String)
    (gw : GwOutcome) (now : Nat) :
    SvcResult × CampaignStore × List GwCall :=
  match mapGet store campaignId with
  | none => (.err "Campaign not found", store, [])
  | some campaign =>
    if campaign.userId ≠ userId then (.err "Campaign not found", store, [])
    else if campaign.status ≠ CampaignStatus.paused then
      (.err ("Cannot resume campaign with status: " ++ campaign.status.str),
        store, [])
    else
      match gw with
      | .fail msg => (.err msg, store, [GwCall.resumeCampaign campaignId])
      | .ok =>
        let c1 := { campaign with status := CampaignStatus.active, updatedAt := now }
        (.ok, mapSet store campaignId c1, [GwCall.resumeCampaign campaignId])

/-- LeadService.processLead from src/services/leadService.ts: precondition
status pending, optimistic write to processing at t1, single-element
addLeads batch carrying the mutated lead, compensation back to pending at
t2 on delegate failure. -/
def processLead (store : LeadStore) (leadId : String) (gw : GwOutcome)
    (t1 t2 : Nat) : SvcResult × LeadStore × List GwCall :=
  match mapGet store leadId with
  | none => (.err "Lead not found", store, [])
  | some lead =>
    if lead.status ≠ LeadStatus.pending then
      (.err ("Cannot process lead with status: " ++ lead.status.str), store, [])
    else
      let l1 := { lead with status := LeadStatus.processing, updatedAt := t1 }
      let s1 := mapSet store leadId l1
      match gw with
      | .ok => (.ok, s1, [GwCall.addLeads lead.campaignId [l1]])
      | .fail msg =>
        let l2 := { l1 with status := LeadStatus.pending, updatedAt := t2 }
        (.err ("Failed to process lead: " ++ msg),
          mapSet s1 leadId l2,
          [GwCall.addLeads lead.campaignId [l1]])

/-- The error strings pushed by validateWorkflowSteps for the step at
zero-based index i, in source order: missing id, unrecognized type,
order below one, missing config object. -/
def stepErrors (i : Nat) (step : WorkflowStep) : List String :=
  (if step.id = "" then
    ["Step " ++ toString (i + 1) ++ " must have an ID"] else []) ++
  (if step.type = "" ∨ workflowStepTypeValues.contains step.type = false then
    ["Step " ++ toString (i + 1) ++ " must have a valid type"] else []) ++
  (if step.order < 1 then
    ["Step " ++ toString (i + 1) ++ " must have an order greater than 0"]
   else []) ++
  (match step.config with
   | none => ["Step " ++ toString (i + 1) ++ " must have a valid config object"]
   | some _ => [])

/-- WorkflowService.validateWorkflowSteps from
src/services/workflowService.ts: returns the valid flag together with the
complete list of violations.  The duplicate-order check compares the length
of the order list against the size of its set of distinct values. -/
def validateWorkflowSteps (steps : List WorkflowStep) : Bool × List String :=
  if steps.isEmpty then
    (false, ["Workflow must have at least one step"])
  else
    let orders := steps.map (fun s => s.order)
    let dupErrors :=
      if orders.length ≠ orders.dedup.length then
        ["Step orders must be unique"]
      else []
    let perStep := (steps.enum.map (fun p => stepErrors p.1 p.2)).flatten
    let errors := dupErrors ++ perStep
    (errors.isEmpty, errors)

/-- WorkflowService.createWorkflow: stores a new workflow in draft status.
The uuidv4 identifier is passed explicitly as workflowId. -/
def createWorkflow (store : WorkflowStore) (workflowId campaignId : String)
    (data : CreateWorkflowRequest) (now : Nat) : Workflow × WorkflowStore :=
  let workflow : Workflow :=
    { id := workflowId
      campaignId := campaignId
      name := data.name
      steps := data.steps
      status := WorkflowStatus.draft
      settings := data.settings
      createdAt := now
      updatedAt := now }
  (workflow, mapSet store workflowId workflow)

/-- WorkflowService.activateWorkflow: checks only the status precondition,
then optimistically writes active at t1, calls
growChiefService.createWorkflow with the (already mutated) workflow, and on
failure compensates back to draft at t2.  No step validation is performed
here. -/
def activateWorkflow (store : WorkflowStore) (workflowId : String)
    (gw : GwOutcome) (t1 t2 : Nat) :
    SvcResult × WorkflowStore × List GwCall :=
  match mapGet store workflowId with
  | none => (.err "Workflow not found", store, [])
  | some workflow =>
    if workflow.status ≠ WorkflowStatus.draft then
      (.err ("Cannot activate workflow with status: " ++ workflow.status.str),
        store, [])
    else
      let w1 := { workflow with status := WorkflowStatus.active, updatedAt := t1 }
      let s1 := mapSet store workflowId w1
      match gw with
      | .ok => (.ok, s1, [GwCall.createWorkflow w1])
      | .fail msg =>
        let w2 := { w1 with status := WorkflowStatus.draft, updatedAt := t2 }
        (.err ("Failed to activate workflow: " ++ msg),
          mapSet s1 workflowId w2,
          [GwCall.createWorkflow w1])

/-- One entry of the requestCounts Map of the rate limiter in
src/middleware/auth.ts. -/
structure ClientData where
  count : Nat
  resetTime : Nat
deriving DecidableEq, Repr

/-- The rate limiter state: the module-level requestCounts Map. -/
abbrev RateMap := List (String × ClientData)

/-- cleanupExpiredEntries from src/middleware/auth.ts: drops every entry
whose resetTime lies strictly in the past. -/
def cleanupExpiredEntries (now : Nat) (m : RateMap) : RateMap :=
  match m with
  | [] => []
  | (k, cd) :: rest =>
    if now > cd.resetTime then cleanupExpiredEntries now rest
    else (k, cd) :: cleanupExpiredEntries now rest

/-- Math.ceil(n / 1000) for a nonnegative millisecond quantity n, as used to
compute the retryAfter seconds of a 429 response. -/
def ceilSeconds (n : Nat) : Nat := (n + 999) / 1000

/-- The response of one rateLimiter invocation: either the request proceeds
to next() and the X-RateLimit-Remaining header carries remaining, or the
request is answered with 429 Too Many Requests carrying retryAfter
seconds. -/
inductive RateDecision
  | next (remaining : Nat)
  | tooMany (retryAfter : Nat)
deriving DecidableEq, Repr

/-- The tail of the rateLimiter middleware after the client window has been
fetched or freshly created: the limit check, the rejection with the
remaining window time, and otherwise the count increment (a JS in-place
mutation of the object stored in the Map, modelled by writing the
incremented entry back). -/
def rateLimiterFinish (limit : Nat) (clientId : String) (cd : ClientData)
    (now : Nat) (m : RateMap) : RateDecision × RateMap :=
  if cd.count ≥ limit then
    (.tooMany (ceilSeconds (cd.resetTime - now)), m)
  else
    let cd1 : ClientData := { count := cd.count + 1, resetTime := cd.resetTime }
    (.next (limit - cd1.count), mapSet m clientId cd1)

/-- The rateLimiter middleware from src/middleware/auth.ts, for one request
of client clientId arriving at time now, parameterized by RATE_LIMIT and
RATE_WINDOW_MS.  A fresh window of count zero starting at now is created
when no entry exists or the existing window has expired. -/
def rateLimiter (limit windowMs : Nat) (clientId : String) (now : Nat)
    (m : RateMap) : RateDecision × RateMap :=
  let m1 := cleanupExpiredEntries now m
  match mapGet m1 clientId with
  | some cd =>
    if now > cd.resetTime then
      let fresh : ClientData := { count := 0, resetTime := now + windowMs }
      rateLimiterFinish limit clientId fresh now (mapSet m1 clientId fresh)
    else
      rateLimiterFinish limit clientId cd now m1
  | none =>
    let fresh : ClientData := { count := 0, resetTime := now + windowMs }
    rateLimiterFinish limit clientId fresh now (mapSet m1 clientId fresh)

/-- GrowChiefConfig from src/integrations/GrowChiefService.ts. -/
structure GrowChiefConfig where
  endpoint : String
  apiKey : String
  timeout : Option Nat
  retryAttempts : Option Nat
deriving DecidableEq, Repr

/-- The headers object built in makeRequest. -/
structure HeadersInit where
  contentType : Option String
  authorization : Option String
  userAgent : Option String
deriving DecidableEq, Repr

/-- The RequestInit options object of a fetch call, restricted to the
properties this code base reads or writes.  A field holds none when the
property is absent from the object literal. -/
structure RequestInit where
  method : Option String
  headers : Option HeadersInit
  body : Option String
  timeout : Option Nat
deriving DecidableEq, Repr

/-- The defaultOptions object of GrowChiefService.makeRequest.  The source
line that would set the timeout property from config.timeout is commented
out (with the note that fetch does not support it), so the timeout property
is absent. -/
def defaultRequestOptions (config : GrowChiefConfig) : RequestInit :=
  { method := none
    headers := some
      { contentType := some "application/json"
        authorization := some ("Bearer " ++ config.apiKey)
        userAgent := some "API-Outreach-Service/1.0.0" }
    body := none
    timeout := none }

/-- JS object spread of two options objects: properties present in the
second override those of the first. -/
def mergeRequestInit (d o : RequestInit) : RequestInit :=
  { method := o.method <|> d.method
    headers := o.headers <|> d.headers
    body := o.body <|> d.body
    timeout := o.timeout <|> d.timeout }

/-- The requestOptions object that GrowChiefService.makeRequest passes to
fetch: the spread of defaultOptions and the per-call options. -/
def makeRequestOptions (config : GrowChiefConfig) (options : RequestInit) :
    RequestInit :=
  mergeRequestInit (defaultRequestOptions config) options

/-- The per-call options objects the GrowChiefService operations pass to
makeRequest: a POST with a JSON body (createWorkflow, executeCampaign,
addLeads)... -/
def postJsonOptions (body : String) : RequestInit :=
  { method := some "POST", headers := none, body := some body, timeout := none }

/-- The bare POST options of pauseCampaign, resumeCampaign and
cancelCampaign. -/
def postOptions : RequestInit :=
  { method := some "POST", headers := none, body := none, timeout := none }

/-- The empty default options object of the GET status calls. -/
def getOptions : RequestInit :=
  { method := none, headers := none, body := none, timeout := none }

/-- The GrowChiefConfig built in the constructors of CampaignService,
LeadService and WorkflowService (environment fallbacks applied). -/
def serviceGrowChiefConfig : GrowChiefConfig :=
  { endpoint := "http://localhost:8080"
    apiKey := "demo-key"
    timeout := some 30000
    retryAttempts := some 3 }

/-- The value space of the unknown argument of getErrorMessage in
src/utils/errorHandler.ts: an Error carrying a message, a string, or any
other value. -/
inductive JsErrorValue
  | errVal (message : String)
  | strVal (s : String)
  | otherVal
deriving DecidableEq, Repr

/-- getErrorMessage from src/utils/errorHandler.ts, with an explicit fuel
argument modelling the JS call stack budget: in the Error branch the source
calls getErrorMessage again on the same error value, so every recursive
call consumes one stack frame; none models the stack-overflow RangeError
raised when the budget is exhausted. -/
def getErrorMessage : Nat → JsErrorValue → Option String
  | 0, _ => none
  | fuel + 1, e =>
    match e with
    | .errVal msg => getErrorMessage fuel (.errVal msg)
    | .strVal s => some s
    | .otherVal => some "An unknown error occurred"

/-- A CampaignService operation as invokable by the request-handling layer,
with all nondeterministic inputs (fresh uuid, clock readings, gateway
outcome) made explicit arguments. -/
inductive CampaignOp
  | create (userId campaignId : String) (data : CreateCampaignRequest) (t : Nat)
  | getById (userId campaignId : String)
  | update (userId campaignId : String) (u : UpdateCampaignRequest) (t : Nat)
  | del (userId campaignId : String) (gw : GwOutcome)
  | start (userId campaignId : String) (gw : GwOutcome) (t1 t2 : Nat)
  | pause (userId campaignId : String) (gw : GwOutcome) (t : Nat)
  | resume (userId campaignId : String) (gw : GwOutcome) (t : Nat)

/-- The effect of one CampaignService operation on the campaign store. -/
def applyCampaignOp (op : CampaignOp) (store : CampaignStore) : CampaignStore :=
  match op with
  | .create u cid d t => (createCampaign store cid u d t).2
  | .getById _ _ => store
  | .update u cid ud t => (updateCampaign store u cid ud t).2
  | .del u cid gw => (deleteCampaign store u cid gw).2.1
  | .start u cid gw t1 t2 => (startCampaign store u cid gw t1 t2).2.1
  | .pause u cid gw t => (pauseCampaign store u cid gw t).2.1
  | .resume u cid gw t => (resumeCampaign store u cid gw t).2.1

/-- The effect of a sequence of CampaignService operations, applied in
order. -/
def applyCampaignOps (ops : List CampaignOp) (store : CampaignStore) :
    CampaignStore :=
  match ops with
  | [] => store
  | op :: rest => applyCampaignOps rest (applyCampaignOp op store)

/-- The campaign identifiers assigned by the create operations of a trace.
uuidv4 never reuses the identifier of a campaign already in the store, so a
pre-existing identifier never appears in this list. -/
def createdIds : List CampaignOp → List String
  | [] => []
  | CampaignOp.create _ cid _ _ :: rest => cid :: createdIds rest
  | _ :: rest => createdIds rest

theorem mapGet_mapSet_self {α : Type} (m : List (String × α)) (k : String)
    (v : α) : mapGet (mapSet m k v) k = some v := by
  induction m with
  | nil => simp [mapGet, mapSet]
  | cons kv rest ih =>
    obtain ⟨k1, v1⟩ := kv
    by_cases h : k1 = k
    · simp [mapSet, h, mapGet]
    · simp [mapSet, h, mapGet, ih]

theorem mapGet_mapSet_ne {α : Type} (m : List (String × α)) (k k' : String)
    (v : α) (h : k' ≠ k) : mapGet (mapSet m k v) k' = mapGet m k' := by
  induction m with
  | nil => simp [mapGet, mapSet, Ne.symm h]
  | cons kv rest ih =>
    obtain ⟨k1, v1⟩ := kv
    by_cases h1 : k1 = k
    · subst h1
      simp [mapSet, mapGet, Ne.symm h]
    · simp [mapSet, h1, mapGet, ih]

theorem mapGet_mapDelete_self {α : Type} (m : List (String × α)) (k : String) :
    mapGet (mapDelete m k) k = none := by
  induction m with
  | nil => simp [mapGet, mapDelete]
  | cons kv rest ih =>
    obtain ⟨k1, v1⟩ := kv
    by_cases h : k1 = k
    · simp [mapDelete, h, ih]
    · simp [mapDelete, h, mapGet, ih]

theorem mapGet_mapDelete_ne {α : Type} (m : List (String × α)) (k k' : String)
    (h : k' ≠ k) : mapGet (mapDelete m k) k' = mapGet m k' := by
  induction m with
  | nil => simp [mapDelete]
  | cons kv rest ih =>
    obtain ⟨k1, v1⟩ := kv
    by_cases h1 : k1 = k
    · subst h1
      simp [mapDelete, mapGet, Ne.symm h, ih]
    · simp [mapDelete, h1, mapGet, ih]

theorem mapSet_mapSet {α : Type} (m : List (String × α)) (k : String)
    (v v' : α) : mapSet (mapSet m k v) k v' = mapSet m k v' := by
  induction m with
  | nil => simp [mapSet]
  | cons kv rest ih =>
    obtain ⟨k1, v1⟩ := kv
    by_cases h : k1 = k
    · simp [mapSet, h]
    · simp [mapSet, h, ih]

/-- One CampaignService operation that is not the creation of campaign id
maps any post-state binding of id back to a pre-state binding of id with
the same owning user: no single operation rewrites userId. -/
theorem applyCampaignOp_userId (op : CampaignOp) (store : CampaignStore)
    (id : String) (hop : ∀ u d t, op ≠ CampaignOp.create u id d t)
    (c' : Campaign)
    (h : mapGet (applyCampaignOp op store) id = some c') :
    ∃ c, mapGet store id = some c ∧ c'.userId = c.userId := by
  cases op with
  | create u cid d t =>
    have hne : id ≠ cid := fun he => hop u d t (by rw [he])
    simp only [applyCampaignOp, createCampaign] at h
    rw [mapGet_mapSet_ne _ _ _ _ hne] at h
    exact ⟨c', h, rfl⟩
  | getById u cid =>
    exact ⟨c', h, rfl⟩
  | update u cid ud t =>
    simp only [applyCampaignOp, updateCampaign] at h
    split at h
    · exact ⟨c', h, rfl⟩
    · rename_i campaign hm
      split at h
      · exact ⟨c', h, rfl⟩
      · by_cases hcid : id = cid
        · subst hcid
          rw [mapGet_mapSet_self] at h
          injection h with h
          exact ⟨campaign, hm, by rw [← h]⟩
        · rw [mapGet_mapSet_ne _ _ _ _ hcid] at h
          exact ⟨c', h, rfl⟩
  | del u cid gw =>
    simp only [applyCampaignOp, deleteCampaign] at h
    split at h
    · exact ⟨c', h, rfl⟩
    · rename_i campaign hm
      split at h
      · exact ⟨c', h, rfl⟩
      · by_cases hcid : id = cid
        · subst hcid
          rw [mapGet_mapDelete_self] at h
          simp at h
        · rw [mapGet_mapDelete_ne _ _ _ hcid] at h
          exact ⟨c', h, rfl⟩
  | start u cid gw t1 t2 =>
    simp only [applyCampaignOp, startCampaign] at h
    split at h
    · exact ⟨c', h, rfl⟩
    · rename_i campaign hm
      split at h
      · exact ⟨c', h, rfl⟩
      · split at h
        · exact ⟨c', h, rfl⟩
        · split at h
          · by_cases hcid : id = cid
            · subst hcid
              rw [mapGet_mapSet_self] at h
              injection h with h
              exact ⟨campaign, hm, by rw [← h]⟩
            · rw [mapGet_mapSet_ne _ _ _ _ hcid] at h
              exact ⟨c', h, rfl⟩
          · by_cases hcid : id = cid
            · subst hcid
              rw [mapSet_mapSet, mapGet_mapSet_self] at h
              injection h with h
              exact ⟨campaign, hm, by rw [← h]⟩
            · rw [mapSet_mapSet, mapGet_mapSet_ne _ _ _ _ hcid] at h
              exact ⟨c', h, rfl⟩
  | pause u cid gw t =>
    simp only [applyCampaignOp, pauseCampaign] at h
    split at h
    · exact ⟨c', h, rfl⟩
    · rename_i campaign hm
      split at h
      · exact ⟨c', h, rfl⟩
      · split at h
        · exact ⟨c', h, rfl⟩
        · split at h
          · exact ⟨c', h, rfl⟩
          · by_cases hcid : id = cid
            · subst hcid
              rw [mapGet_mapSet_self] at h
              injection h with h
              exact ⟨campaign, hm, by rw [← h]⟩
            · rw [mapGet_mapSet_ne _ _ _ _ hcid] at h
              exact ⟨c', h, rfl⟩
  | resume u cid gw t =>
    simp only [applyCampaignOp, resumeCampaign] at h
    split at h
    · exact ⟨c', h, rfl⟩
    · rename_i campaign hm
      split at h
      · exact ⟨c', h, rfl⟩
      · split at h
        · exact ⟨c', h, rfl⟩
        · split at h
          · exact ⟨c', h, rfl⟩
          · by_cases hcid : id = cid
            · subst hcid
              rw [mapGet_mapSet_self] at h
              injection h with h
              exact ⟨campaign, hm, by rw [← h]⟩
            · rw [mapGet_mapSet_ne _ _ _ _ hcid] at h
              exact ⟨c', h, rfl⟩

/-- Over a trace of operations none of which creates campaign id, any final
binding of id traces back to an initial binding with the same owning user. -/
theorem applyCampaignOps_userId (ops : List CampaignOp) (id : String) :
    id ∉ createdIds ops →
    ∀ store c', mapGet (applyCampaignOps ops store) id = some c' →
    ∃ c, mapGet store id = some c ∧ c'.userId = c.userId := by
  induction ops with
  | nil =>
    intro _ store c' h
    exact ⟨c', h, rfl⟩
  | cons op rest ih =>
    intro hid store c' h
    have hid1 : id ∉ createdIds rest := by
      cases op <;> simp [createdIds] at hid ⊢ <;> tauto
    have hop : ∀ u d t, op ≠ CampaignOp.create u id d t := by
      intro u d t he
      subst he
      apply hid
      simp [createdIds]
    obtain ⟨c'', h2, he2⟩ := ih hid1 (applyCampaignOp op store) c' h
    obtain ⟨c, h3, he3⟩ := applyCampaignOp_userId op store id hop c'' h2
    exact ⟨c, h3, he2.trans he3⟩

/-- Campaign settings used by the concrete examples below, mirroring the
fixture of campaignService.test.ts. -/
def demoSettings : CampaignSettings :=
  { workingHours :=
      { start := "09:00", endHM := "17:00", timezone := "UTC",
        weekdays := [1, 2, 3, 4, 5] }
    rateLimiting :=
      { maxConnectionsPerDay := 50, maxMessagesPerDay := 100,
        delayBetweenActions := 5000 }
    personalization :=
      { useCustomMessages := true, messageTemplates := ["Hello"],
        includeCompanyInfo := true } }

/-- A stored draft campaign, last updated at time 50. -/
def demoCampaign : Campaign :=
  { id := "c1", userId := "user123", name := "Test Campaign",
    description := some "A test campaign", status := CampaignStatus.draft,
    platform := SocialPlatform.linkedin, settings := demoSettings,
    createdAt := 50, updatedAt := 50, startedAt := none, completedAt := none }

/-- A store holding only demoCampaign. -/
def demoStore : CampaignStore := [("c1", demoCampaign)]

/-- A stored active campaign, started at time 60. -/
def demoActiveCampaign : Campaign :=
  { demoCampaign with
    id := "c2", status := CampaignStatus.active, startedAt := some 60 }

/-- A store holding only demoActiveCampaign. -/
def demoStore2 : CampaignStore := [("c2", demoActiveCampaign)]

/-- Helper equation: startCampaign of a draft campaign under a failing
delegate performs the compensating write (status draft, startedAt cleared,
updatedAt stamped with the rollback time) and rejects with the delegate
message wrapped in context. -/
theorem startCampaign_fail_eq (store : CampaignStore) (uid cid : String)
    (c : Campaign) (m : String) (t1 t2 : Nat)
    (hc : mapGet store cid = some c) (hu : c.userId = uid)
    (hs : c.status = CampaignStatus.draft) :
    startCampaign store uid cid (GwOutcome.fail m) t1 t2 =
      (SvcResult.err ("Failed to start campaign: " ++ m),
       mapSet store cid
         { c with status := CampaignStatus.draft, startedAt := none,
                  updatedAt := t2 },
       [GwCall.executeCampaign cid "default-workflow"]) := by
  simp [startCampaign, hc, hu, hs, mapSet_mapSet]

/-- Claim C1, counterexample: starting demoCampaign (updatedAt 50) at time
100 against a failing delegate, with the rollback at time 200, leaves a
stored entity that is not byte-for-byte equal to the original, because the
rollback stamps updatedAt with the rollback time. -/
theorem startCampaign_roundtrip_counterexample :
    mapGet (startCampaign demoStore "user123" "c1"
        (GwOutcome.fail "backend down") 100 200).2.1 "c1" ≠
      some demoCampaign := by
  decide

/-- Claim C1 (amended): for every stored draft campaign owned by the
caller, when the delegate call of start fails, start reverts status to
draft, clears startedAt, persists, and surfaces the delegate error wrapped
with context; the stored campaign equals the original entity in every
field except updatedAt, which carries the rollback time. -/
theorem startCampaign_rollback (store : CampaignStore) (uid cid : String)
    (c : Campaign) (m : String) (t1 t2 : Nat)
    (hc : mapGet store cid = some c) (hu : c.userId = uid)
    (hs : c.status = CampaignStatus.draft) :
    (startCampaign store uid cid (GwOutcome.fail m) t1 t2).1 =
      SvcResult.err ("Failed to start campaign: " ++ m) ∧
    mapGet (startCampaign store uid cid (GwOutcome.fail m) t1 t2).2.1 cid =
      some { c with status := CampaignStatus.draft, startedAt := none,
                    updatedAt := t2 } := by
  rw [startCampaign_fail_eq store uid cid c m t1 t2 hc hu hs]
  exact ⟨rfl, mapGet_mapSet_self _ _ _⟩

/-- Witness for startCampaign_rollback at a concrete input. -/
theorem startCampaign_rollback_witness :
    (startCampaign demoStore "user123" "c1"
        (GwOutcome.fail "backend down") 100 200).1 =
      SvcResult.err ("Failed to start campaign: " ++ "backend down") ∧
    mapGet (startCampaign demoStore "user123" "c1"
        (GwOutcome.fail "backend down") 100 200).2.1 "c1" =
      some { demoCampaign with status := CampaignStatus.draft,
                               startedAt := none, updatedAt := 200 } :=
  startCampaign_rollback demoStore "user123" "c1" demoCampaign
    "backend down" 100 200 (by decide) (by decide) (by decide)

/-- Claim C4: for every stored campaign owned by the caller whose status is
not draft, startCampaign rejects with the precondition error naming the
operation and the offending status, issues no delegate call, and leaves
the store unmodified. -/
theorem startCampaign_precondition (store : CampaignStore) (uid cid : String)
    (c : Campaign) (gw : GwOutcome) (t1 t2 : Nat)
    (hc : mapGet store cid = some c) (hu : c.userId = uid)
    (hs : c.status ≠ CampaignStatus.draft) :
    startCampaign store uid cid gw t1 t2 =
      (SvcResult.err ("Cannot start campaign with status: " ++ c.status.str),
       store, []) := by
  simp [startCampaign, hc, hu, hs]

/-- Witness for startCampaign_precondition at a concrete input. -/
theorem startCampaign_precondition_witness :
    startCampaign demoStore2 "user123" "c2" GwOutcome.ok 100 200 =
      (SvcResult.err
        ("Cannot start campaign with status: " ++ demoActiveCampaign.status.str),
       demoStore2, []) :=
  startCampaign_precondition demoStore2 "user123" "c2" demoActiveCampaign
    GwOutcome.ok 100 200 (by decide) (by decide) (by decide)

/-- Claim C7: for every stored campaign owned by the caller, deleteCampaign
reports success and removes the campaign from the store for either gateway
outcome; when the campaign is active it first issues the best-effort
cancelCampaign call (and only then), and even a throwing cancel call does
not block the local deletion. -/
theorem deleteCampaign_best_effort (store : CampaignStore) (uid cid : String)
    (c : Campaign) (gw : GwOutcome)
    (hc : mapGet store cid = some c) (hu : c.userId = uid) :
    deleteCampaign store uid cid gw =
      (true, mapDelete store cid,
        if c.status = CampaignStatus.active then [GwCall.cancelCampaign cid]
        else []) ∧
    mapGet (deleteCampaign store uid cid gw).2.1 cid = none := by
  have he : deleteCampaign store uid cid gw =
      (true, mapDelete store cid,
        if c.status = CampaignStatus.active then [GwCall.cancelCampaign cid]
        else []) := by
    simp [deleteCampaign, hc, hu]
  refine ⟨he, ?_⟩
  rw [he]
  exact mapGet_mapDelete_self _ _

/-- Witness for deleteCampaign_best_effort: an active campaign is deleted
even though the cancel call throws. -/
theorem deleteCampaign_best_effort_witness :
    deleteCampaign demoStore2 "user123" "c2" (GwOutcome.fail "cancel failed") =
      (true, mapDelete demoStore2 "c2",
        if demoActiveCampaign.status = CampaignStatus.active then
          [GwCall.cancelCampaign "c2"]
        else []) ∧
    mapGet (deleteCampaign demoStore2 "user123" "c2"
        (GwOutcome.fail "cancel failed")).2.1 "c2" = none :=
  deleteCampaign_best_effort demoStore2 "user123" "c2" demoActiveCampaign
    (GwOutcome.fail "cancel failed") (by decide) (by decide)

/-- Claim C8: for every stored campaign owned by the caller, pauseCampaign
(precondition active) and resumeCampaign (precondition paused) issue the
delegate call before any local mutation: a delegate failure leaves the
store completely unchanged and the rejection is surfaced directly
(unwrapped); only on delegate success is the status flipped to paused
respectively active. -/
theorem pauseResume_delegate_first (store : CampaignStore) (uid cid : String)
    (c : Campaign) (m : String) (t : Nat)
    (hc : mapGet store cid = some c) (hu : c.userId = uid) :
    (c.status = CampaignStatus.active →
      pauseCampaign store uid cid (GwOutcome.fail m) t =
        (SvcResult.err m, store, [GwCall.pauseCampaign cid]) ∧
      pauseCampaign store uid cid GwOutcome.ok t =
        (SvcResult.ok,
          mapSet store cid
            { c with status := CampaignStatus.paused, updatedAt := t },
          [GwCall.pauseCampaign cid])) ∧
    (c.status = CampaignStatus.paused →
      resumeCampaign store uid cid (GwOutcome.fail m) t =
        (SvcResult.err m, store, [GwCall.resumeCampaign cid]) ∧
      resumeCampaign store uid cid GwOutcome.ok t =
        (SvcResult.ok,
          mapSet store cid
            { c with status := CampaignStatus.active, updatedAt := t },
          [GwCall.resumeCampaign cid])) := by
  constructor
  · intro hs
    constructor
    · simp [pauseCampaign, hc, hu, hs]
    · simp [pauseCampaign, hc, hu, hs]
  · intro hs
    constructor
    · simp [resumeCampaign, hc, hu, hs]
    · simp [resumeCampaign, hc, hu, hs]

/-- Witness for pauseResume_delegate_first: pausing an active campaign
against a failing delegate surfaces the failure and leaves the store
untouched. -/
theorem pauseResume_delegate_first_witness :
    pauseCampaign demoStore2 "user123" "c2" (GwOutcome.fail "backend down") 99 =
      (SvcResult.err "backend down", demoStore2, [GwCall.pauseCampaign "c2"]) :=
  ((pauseResume_delegate_first demoStore2 "user123" "c2" demoActiveCampaign
      "backend down" 99 (by decide) (by decide)).1 (by decide)).1

/-- A stored lead whose status is connected. -/
def demoConnectedLead : Lead :=
  { id := "l1", campaignId := "c1", email := some "lead@example.com",
    name := some "Lead", company := none, profileUrl := none,
    status := LeadStatus.connected, metadata := none,
    createdAt := 10, updatedAt := 10, processedAt := none }

/-- A lead store holding only demoConnectedLead. -/
def demoLeadStore : LeadStore := [("l1", demoConnectedLead)]

/-- Claim C5: processLead requires status pending: on any other status it
rejects with the precondition error and issues no gateway call; when the
precondition holds it optimistically writes processing, persists, calls
addLeads with a single-element batch, and on delegate failure rolls the
lead back to pending and surfaces the wrapped error. -/
theorem processLead_spec (store : LeadStore) (lid : String) (l : Lead)
    (m : String) (t1 t2 : Nat) (hl : mapGet store lid = some l) :
    (l.status ≠ LeadStatus.pending →
      ∀ gw, processLead store lid gw t1 t2 =
        (SvcResult.err ("Cannot process lead with status: " ++ l.status.str),
         store, [])) ∧
    (l.status = LeadStatus.pending →
      processLead store lid GwOutcome.ok t1 t2 =
        (SvcResult.ok,
          mapSet store lid
            { l with status := LeadStatus.processing, updatedAt := t1 },
          [GwCall.addLeads l.campaignId
            [{ l with status := LeadStatus.processing, updatedAt := t1 }]]) ∧
      processLead store lid (GwOutcome.fail m) t1 t2 =
        (SvcResult.err ("Failed to process lead: " ++ m),
          mapSet store lid
            { l with status := LeadStatus.pending, updatedAt := t2 },
          [GwCall.addLeads l.campaignId
            [{ l with status := LeadStatus.processing, updatedAt := t1 }]])) := by
  constructor
  · intro hs gw
    simp [processLead, hl, hs]
  · intro hs
    constructor
    · simp [processLead, hl, hs]
    · simp [processLead, hl, hs, mapSet_mapSet]

/-- Witness for processLead_spec: a connected lead is rejected with the
precondition error and no gateway call occurs. -/
theorem processLead_spec_witness :
    processLead demoLeadStore "l1" GwOutcome.ok 100 200 =
      (SvcResult.err
        ("Cannot process lead with status: " ++ demoConnectedLead.status.str),
       demoLeadStore, []) :=
  (processLead_spec demoLeadStore "l1" demoConnectedLead "m" 100 200
    (by decide)).1 (by decide) GwOutcome.ok

/-- Workflow settings used by the concrete examples below. -/
def demoWorkflowSettings : WorkflowSettings :=
  { retryAttempts := 3, retryDelay := 30000, timeout := 300000,
    concurrency := 5 }

/-- A stored draft workflow with an empty step list, which
validateWorkflowSteps rejects. -/
def demoEmptyWorkflow : Workflow :=
  { id := "w1", campaignId := "c1", name := "Empty", steps := [],
    status := WorkflowStatus.draft, settings := demoWorkflowSettings,
    createdAt := 0, updatedAt := 0 }

/-- A workflow store holding only demoEmptyWorkflow. -/
def demoWorkflowStore : WorkflowStore := [("w1", demoEmptyWorkflow)]

/-- Claim C2, counterexample: the stored draft workflow with zero steps
fails step validation, yet activateWorkflow still issues the delegate call
and mutates the store: activation performs no step validation at all. -/
theorem activateWorkflow_validation_counterexample :
    (validateWorkflowSteps demoEmptyWorkflow.steps).1 = false ∧
    (activateWorkflow demoWorkflowStore "w1" GwOutcome.ok 5 6).2.2 ≠ [] ∧
    (activateWorkflow demoWorkflowStore "w1" GwOutcome.ok 5 6).2.1 ≠
      demoWorkflowStore := by
  decide

/-- Claim C2 (amended): activateWorkflow requires only the status
precondition (draft) before any delegate call and any state mutation: for
a workflow not in draft, it rejects with the precondition error, the store
is never touched and no AutomationGateway call occurs.  Step validation is
a separate pure function applied at workflow creation by the controller,
not at activation. -/
theorem activateWorkflow_precondition (store : WorkflowStore) (wid : String)
    (w : Workflow) (gw : GwOutcome) (t1 t2 : Nat)
    (hw : mapGet store wid = some w)
    (hs : w.status ≠ WorkflowStatus.draft) :
    activateWorkflow store wid gw t1 t2 =
      (SvcResult.err ("Cannot activate workflow with status: " ++ w.status.str),
       store, []) := by
  simp [activateWorkflow, hw, hs]

/-- A stored active workflow. -/
def demoActiveWorkflow : Workflow :=
  { demoEmptyWorkflow with id := "w2", status := WorkflowStatus.active }

/-- A workflow store holding only demoActiveWorkflow. -/
def demoWorkflowStore2 : WorkflowStore := [("w2", demoActiveWorkflow)]

/-- Witness for activateWorkflow_precondition at a concrete input. -/
theorem activateWorkflow_precondition_witness :
    activateWorkflow demoWorkflowStore2 "w2" GwOutcome.ok 5 6 =
      (SvcResult.err
        ("Cannot activate workflow with status: " ++ demoActiveWorkflow.status.str),
       demoWorkflowStore2, []) :=
  activateWorkflow_precondition demoWorkflowStore2 "w2" demoActiveWorkflow
    GwOutcome.ok 5 6 (by decide) (by decide)

/-- Driver: the decisions of a sequence of requests of one client at the
given times, threading the requestCounts map, together with the final
map. -/
def rateLimiterRun (limit windowMs : Nat) (clientId : String)
    (ts : List Nat) (m : RateMap) : List RateDecision × RateMap :=
  match ts with
  | [] => ([], m)
  | t :: rest =>
    let r := rateLimiter limit windowMs clientId t m
    let rec1 := rateLimiterRun limit windowMs clientId rest r.2
    (r.1 :: rec1.1, rec1.2)

/-- Claim C3: with limit 3 and a 60000 ms window, for monotone request
times t1 ≤ t2 ≤ t3 ≤ t4 all inside the window opened at t1, exactly the
first three requests of the client are allowed; the fourth is rejected
with a retryAfter of the remaining window time in seconds (rounded up),
which is at most 60; and a further request after the window has elapsed
opens a fresh window and is allowed. -/
theorem rateLimiter_window (c : String) (t1 t2 t3 t4 t5 : Nat)
    (h12 : t1 ≤ t2) (h23 : t2 ≤ t3) (h34 : t3 ≤ t4)
    (hw : t4 ≤ t1 + 60000) (h5 : t1 + 60000 < t5) :
    (rateLimiterRun 3 60000 c [t1, t2, t3, t4] []).1 =
      [RateDecision.next 2, RateDecision.next 1, RateDecision.next 0,
       RateDecision.tooMany (ceilSeconds (t1 + 60000 - t4))] ∧
    ceilSeconds (t1 + 60000 - t4) ≤ 60 ∧
    (rateLimiter 3 60000 c t5
        (rateLimiterRun 3 60000 c [t1, t2, t3, t4] []).2).1 =
      RateDecision.next 2 := by
  have hw2 : t2 ≤ t1 + 60000 := le_trans h23 (le_trans h34 hw)
  have hw3 : t3 ≤ t1 + 60000 := le_trans h34 hw
  have e1 : rateLimiter 3 60000 c t1 [] =
      (RateDecision.next 2, [(c, ⟨1, t1 + 60000⟩)]) := by
    simp [rateLimiter, cleanupExpiredEntries, mapGet, mapSet, rateLimiterFinish]
  have e2 : rateLimiter 3 60000 c t2 [(c, ⟨1, t1 + 60000⟩)] =
      (RateDecision.next 1, [(c, ⟨2, t1 + 60000⟩)]) := by
    simp [rateLimiter, cleanupExpiredEntries, mapGet, mapSet,
      rateLimiterFinish, not_lt.mpr hw2]
  have e3 : rateLimiter 3 60000 c t3 [(c, ⟨2, t1 + 60000⟩)] =
      (RateDecision.next 0, [(c, ⟨3, t1 + 60000⟩)]) := by
    simp [rateLimiter, cleanupExpiredEntries, mapGet, mapSet,
      rateLimiterFinish, not_lt.mpr hw3]
  have e4 : rateLimiter 3 60000 c t4 [(c, ⟨3, t1 + 60000⟩)] =
      (RateDecision.tooMany (ceilSeconds (t1 + 60000 - t4)),
       [(c, ⟨3, t1 + 60000⟩)]) := by
    simp [rateLimiter, cleanupExpiredEntries, mapGet,
      rateLimiterFinish, not_lt.mpr hw]
  have e5 : rateLimiter 3 60000 c t5 [(c, ⟨3, t1 + 60000⟩)] =
      (RateDecision.next 2, [(c, ⟨1, t5 + 60000⟩)]) := by
    simp [rateLimiter, cleanupExpiredEntries, mapGet, mapSet,
      rateLimiterFinish, h5]
  have erun : rateLimiterRun 3 60000 c [t1, t2, t3, t4] [] =
      ([RateDecision.next 2, RateDecision.next 1, RateDecision.next 0,
        RateDecision.tooMany (ceilSeconds (t1 + 60000 - t4))],
       [(c, ⟨3, t1 + 60000⟩)]) := by
    simp [rateLimiterRun, e1, e2, e3, e4]
  refine ⟨by rw [erun], ?_, by rw [erun, e5]⟩
  have hle : t1 + 60000 - t4 ≤ 60000 := by omega
  unfold ceilSeconds
  omega

/-- Witness for rateLimiter_window at concrete request times. -/
theorem rateLimiter_window_witness :
    (rateLimiterRun 3 60000 "user:u1" [1000, 2000, 3000, 4000] []).1 =
      [RateDecision.next 2, RateDecision.next 1, RateDecision.next 0,
       RateDecision.tooMany (ceilSeconds (1000 + 60000 - 4000))] ∧
    ceilSeconds (1000 + 60000 - 4000) ≤ 60 ∧
    (rateLimiter 3 60000 "user:u1" 70000
        (rateLimiterRun 3 60000 "user:u1" [1000, 2000, 3000, 4000] []).2).1 =
      RateDecision.next 2 :=
  rateLimiter_window "user:u1" 1000 2000 3000 4000 70000
    (by decide) (by decide) (by decide) (by decide) (by decide)

/-- Claim C6, counterexample: the services construct their gateway with a
configured timeout of 30000 ms, yet the request options that makeRequest
hands to fetch carry no timeout property at all — the source line that
would apply config.timeout is commented out — so no gateway network call
is bounded by the configured timeout. -/
theorem makeRequest_timeout_counterexample :
    serviceGrowChiefConfig.timeout = some 30000 ∧
    (makeRequestOptions serviceGrowChiefConfig (postJsonOptions "x")).timeout =
      none ∧
    (makeRequestOptions serviceGrowChiefConfig postOptions).timeout = none ∧
    (makeRequestOptions serviceGrowChiefConfig getOptions).timeout = none := by
  decide

/-- Claim C6 (amended): every AutomationGateway operation issues its
network call with no timeout bound: for any configuration and any per-call
options object that sets no timeout (all call sites pass such objects),
the merged fetch options carry no timeout.  Any delegate failure — a call
that times out elsewhere and surfaces as a rejection included — is treated
as a delegate failure and triggers the same rollback path as an explicit
error, shown here for startCampaign. -/
theorem makeRequest_unbounded_rollback (config : GrowChiefConfig)
    (options : RequestInit) (ho : options.timeout = none)
    (store : CampaignStore) (uid cid : String) (c : Campaign) (m : String)
    (t1 t2 : Nat) (hc : mapGet store cid = some c) (hu : c.userId = uid)
    (hs : c.status = CampaignStatus.draft) :
    (makeRequestOptions config options).timeout = none ∧
    (startCampaign store uid cid (GwOutcome.fail m) t1 t2).1 =
      SvcResult.err ("Failed to start campaign: " ++ m) ∧
    mapGet (startCampaign store uid cid (GwOutcome.fail m) t1 t2).2.1 cid =
      some { c with status := CampaignStatus.draft, startedAt := none,
                    updatedAt := t2 } := by
  refine ⟨?_, ?_, ?_⟩
  · simp [makeRequestOptions, mergeRequestInit, defaultRequestOptions, ho]
  · rw [startCampaign_fail_eq store uid cid c m t1 t2 hc hu hs]
  · rw [startCampaign_fail_eq store uid cid c m t1 t2 hc hu hs]
    exact mapGet_mapSet_self _ _ _

/-- Witness for makeRequest_unbounded_rollback at a concrete input. -/
theorem makeRequest_unbounded_rollback_witness :
    (makeRequestOptions serviceGrowChiefConfig (postJsonOptions "x")).timeout =
      none ∧
    (startCampaign demoStore "user123" "c1"
        (GwOutcome.fail "request aborted") 100 200).1 =
      SvcResult.err ("Failed to start campaign: " ++ "request aborted") ∧
    mapGet (startCampaign demoStore "user123" "c1"
        (GwOutcome.fail "request aborted") 100 200).2.1 "c1" =
      some { demoCampaign with status := CampaignStatus.draft,
                               startedAt := none, updatedAt := 200 } :=
  makeRequest_unbounded_rollback serviceGrowChiefConfig (postJsonOptions "x")
    (by decide) demoStore "user123" "c1" demoCampaign "request aborted"
    100 200 (by decide) (by decide) (by decide)

/-- Claim C9: across any sequence of CampaignService operations (create,
get, update, delete, start, pause, resume) in which the tracked campaign
identifier is never the target of a create (uuidv4 assigns fresh
identifiers, so an identifier already in the store never is), a stored
campaign keeps the owning userId assigned at creation: no operation ever
changes a stored campaign's userId. -/
theorem campaign_userId_invariant (ops : List CampaignOp)
    (store : CampaignStore) (id : String) (c c' : Campaign)
    (hid : id ∉ createdIds ops) (hc : mapGet store id = some c)
    (hc' : mapGet (applyCampaignOps ops store) id = some c') :
    c'.userId = c.userId := by
  obtain ⟨c0, h0, he⟩ := applyCampaignOps_userId ops id hid store c' hc'
  rw [hc] at h0
  injection h0 with h0
  rw [he, ← h0]

/-- Operation trace used by the userId-invariant witness: a field update
followed by a failed start. -/
def demoOps : List CampaignOp :=
  [CampaignOp.update "user123" "c1"
     { name := some "Renamed", description := none, platform := none,
       settings := none } 60,
   CampaignOp.start "user123" "c1" (GwOutcome.fail "backend down") 70 71]

/-- The stored campaign after demoOps has been applied to demoStore. -/
def demoFinalCampaign : Campaign :=
  { demoCampaign with name := "Renamed", updatedAt := 71 }

/-- Witness for campaign_userId_invariant on the concrete trace demoOps. -/
theorem campaign_userId_invariant_witness :
    demoFinalCampaign.userId = demoCampaign.userId :=
  campaign_userId_invariant demoOps demoStore "c1" demoCampaign
    demoFinalCampaign (by decide) (by decide) (by decide)

/-- Claim C10: getErrorMessage does not terminate on an Error argument: the
Error branch of the source calls the helper again on the very same value,
so for every stack budget the computation exhausts the budget without
producing the message string the documentation promises (the string and
fallback branches do return). -/
theorem getErrorMessage_diverges_on_error (fuel : Nat) (m : String) :
    getErrorMessage fuel (JsErrorValue.errVal m) = none := by
  induction fuel with
  | zero => rfl
  | succ n ih => simpa [getErrorMessage] using ih
